import Mathlib

/-!
Shallow embedding of `app/models.py`, the persistent data schema and
validation shapes of a multi-tenant SaaS product (user/organization
management, token-metered subscriptions, documents, chat/query history).

Modelling conventions, applied uniformly:
* Python `str`-valued enums become inductive types together with the list
  of declared members (`values`), the declared string value of each member
  (`toStr`), and the validation step that maps an incoming raw string to a
  member or rejects it (`ofString`), exactly as enum-membership validation
  looks the raw value up among the declared values.
* Table models and the non-persistent `*Create` / `*Update` shapes become
  structures whose fields mirror the declared columns in order; Python
  `int` is `Int`, `datetime` is an epoch timestamp `Nat`, `bool` is
  `Bool`, `Decimal(max_digits = d, decimal_places = p)` is the unscaled
  integer at scale `p` (so `29.99` with two places is `2999`), and a JSON
  object column is an association list of string pairs.
* Declared per-field constraints (`max_length`, `min_length`,
  `max_digits`) become a decidable `validate` predicate on the structure;
  a field with no declared constraint contributes no check.
* `default=` values become Lean structure defaults; `default_factory`
  timestamps become an explicit clock argument of the row constructor.
* A column-level `unique=True` constraint or a (composite) primary key
  becomes an insertion function on the table, modelled as a list of rows,
  that rejects a row whose key is already present, and the set of tables
  the database can reach is the inductive closure of such insertions.
-/

namespace App

/-- Enum `UserType` with string values `b2c`, `b2b`. -/
inductive UserType where
  | B2C
  | B2B
  deriving DecidableEq

/-- The declared string value of each `UserType` member. -/
def UserType.toStr : UserType → String
  | .B2C => "b2c"
  | .B2B => "b2b"

/-- The declared members of `UserType`, in declaration order. -/
def UserType.values : List UserType := [.B2C, .B2B]

/-- Enum-membership validation for `UserType`: look the raw string up among
the declared members. -/
def UserType.ofString (s : String) : Option UserType :=
  UserType.values.find? (fun x => decide (x.toStr = s))

/-- Enum `AccountType` with string values `master`, `member`. -/
inductive AccountType where
  | MASTER
  | MEMBER
  deriving DecidableEq

/-- The declared string value of each `AccountType` member. -/
def AccountType.toStr : AccountType → String
  | .MASTER => "master"
  | .MEMBER => "member"

/-- The declared members of `AccountType`, in declaration order. -/
def AccountType.values : List AccountType := [.MASTER, .MEMBER]

/-- Enum-membership validation for `AccountType`. -/
def AccountType.ofString (s : String) : Option AccountType :=
  AccountType.values.find? (fun x => decide (x.toStr = s))

/-- Enum `CompanyType` with six declared members. -/
inductive CompanyType where
  | STARTUP
  | SME
  | CORPORATION
  | NON_PROFIT
  | GOVERNMENT
  | OTHER
  deriving DecidableEq

/-- The declared string value of each `CompanyType` member. -/
def CompanyType.toStr : CompanyType → String
  | .STARTUP => "startup"
  | .SME => "sme"
  | .CORPORATION => "corporation"
  | .NON_PROFIT => "non_profit"
  | .GOVERNMENT => "government"
  | .OTHER => "other"

/-- The declared members of `CompanyType`, in declaration order. -/
def CompanyType.values : List CompanyType :=
  [.STARTUP, .SME, .CORPORATION, .NON_PROFIT, .GOVERNMENT, .OTHER]

/-- Enum-membership validation for `CompanyType`. -/
def CompanyType.ofString (s : String) : Option CompanyType :=
  CompanyType.values.find? (fun x => decide (x.toStr = s))

/-- Enum `CompanySize` with four declared members. -/
inductive CompanySize where
  | MICRO
  | SMALL
  | MEDIUM
  | LARGE
  deriving DecidableEq

/-- The declared string value of each `CompanySize` member. -/
def CompanySize.toStr : CompanySize → String
  | .MICRO => "micro"
  | .SMALL => "small"
  | .MEDIUM => "medium"
  | .LARGE => "large"

/-- The declared members of `CompanySize`, in declaration order. -/
def CompanySize.values : List CompanySize := [.MICRO, .SMALL, .MEDIUM, .LARGE]

/-- Enum-membership validation for `CompanySize`. -/
def CompanySize.ofString (s : String) : Option CompanySize :=
  CompanySize.values.find? (fun x => decide (x.toStr = s))

/-- Enum `PricingPlan` with string values `week_pass`, `bestprice`. -/
inductive PricingPlan where
  | WEEK_PASS
  | BESTPRICE
  deriving DecidableEq

/-- The declared string value of each `PricingPlan` member. -/
def PricingPlan.toStr : PricingPlan → String
  | .WEEK_PASS => "week_pass"
  | .BESTPRICE => "bestprice"

/-- The declared members of `PricingPlan`, in declaration order. -/
def PricingPlan.values : List PricingPlan := [.WEEK_PASS, .BESTPRICE]

/-- Enum-membership validation for `PricingPlan`. -/
def PricingPlan.ofString (s : String) : Option PricingPlan :=
  PricingPlan.values.find? (fun x => decide (x.toStr = s))

/-- Enum `QueryType` with string values `light`, `main`. -/
inductive QueryType where
  | LIGHT
  | MAIN
  deriving DecidableEq

/-- The declared string value of each `QueryType` member. -/
def QueryType.toStr : QueryType → String
  | .LIGHT => "light"
  | .MAIN => "main"

/-- The declared members of `QueryType`, in declaration order. -/
def QueryType.values : List QueryType := [.LIGHT, .MAIN]

/-- Enum-membership validation for `QueryType`. -/
def QueryType.ofString (s : String) : Option QueryType :=
  QueryType.values.find? (fun x => decide (x.toStr = s))

/-- Enum `Language`: the 24 official EU languages by ISO code. -/
inductive Language where
  | BG
  | CS
  | DA
  | DE
  | EL
  | EN
  | ES
  | ET
  | FI
  | FR
  | GA
  | HR
  | HU
  | IT
  | LT
  | LV
  | MT
  | NL
  | PL
  | PT
  | RO
  | SK
  | SL
  | SV
  deriving DecidableEq

/-- The declared string value of each `Language` member. -/
def Language.toStr : Language → String
  | .BG => "bg"
  | .CS => "cs"
  | .DA => "da"
  | .DE => "de"
  | .EL => "el"
  | .EN => "en"
  | .ES => "es"
  | .ET => "et"
  | .FI => "fi"
  | .FR => "fr"
  | .GA => "ga"
  | .HR => "hr"
  | .HU => "hu"
  | .IT => "it"
  | .LT => "lt"
  | .LV => "lv"
  | .MT => "mt"
  | .NL => "nl"
  | .PL => "pl"
  | .PT => "pt"
  | .RO => "ro"
  | .SK => "sk"
  | .SL => "sl"
  | .SV => "sv"

/-- The declared members of `Language`, in declaration order. -/
def Language.values : List Language :=
  [.BG, .CS, .DA, .DE, .EL, .EN, .ES, .ET, .FI, .FR, .GA, .HR,
   .HU, .IT, .LT, .LV, .MT, .NL, .PL, .PT, .RO, .SK, .SL, .SV]

/-- Enum-membership validation for `Language`. -/
def Language.ofString (s : String) : Option Language :=
  Language.values.find? (fun x => decide (x.toStr = s))

/-- Looking a string up among declared members fails when no member has
that string value. -/
theorem find_none_of_no_match {α : Type} (toS : α → String) (vals : List α)
    (s : String) (h : ∀ x : α, toS x ≠ s) :
    vals.find? (fun x => decide (toS x = s)) = none := by
  apply List.find?_eq_none.mpr
  intro x _
  simpa using h x

/-- C2: for each of the seven enum types, validation accepts every declared
member (mapping its string value back to the member) and rejects every
string that is the value of no member. -/
theorem enum_fields_closed_sets :
    ((∀ x : UserType, UserType.ofString x.toStr = some x) ∧
      ∀ s : String, (∀ x : UserType, x.toStr ≠ s) → UserType.ofString s = none) ∧
    ((∀ x : AccountType, AccountType.ofString x.toStr = some x) ∧
      ∀ s : String, (∀ x : AccountType, x.toStr ≠ s) → AccountType.ofString s = none) ∧
    ((∀ x : CompanyType, CompanyType.ofString x.toStr = some x) ∧
      ∀ s : String, (∀ x : CompanyType, x.toStr ≠ s) → CompanyType.ofString s = none) ∧
    ((∀ x : CompanySize, CompanySize.ofString x.toStr = some x) ∧
      ∀ s : String, (∀ x : CompanySize, x.toStr ≠ s) → CompanySize.ofString s = none) ∧
    ((∀ x : PricingPlan, PricingPlan.ofString x.toStr = some x) ∧
      ∀ s : String, (∀ x : PricingPlan, x.toStr ≠ s) → PricingPlan.ofString s = none) ∧
    ((∀ x : QueryType, QueryType.ofString x.toStr = some x) ∧
      ∀ s : String, (∀ x : QueryType, x.toStr ≠ s) → QueryType.ofString s = none) ∧
    ((∀ x : Language, Language.ofString x.toStr = some x) ∧
      ∀ s : String, (∀ x : Language, x.toStr ≠ s) → Language.ofString s = none) := by
  refine ⟨⟨?_, ?_⟩, ⟨?_, ?_⟩, ⟨?_, ?_⟩, ⟨?_, ?_⟩, ⟨?_, ?_⟩, ⟨?_, ?_⟩, ?_, ?_⟩
  · intro x; cases x <;> rfl
  · intro s h; exact find_none_of_no_match UserType.toStr UserType.values s h
  · intro x; cases x <;> rfl
  · intro s h; exact find_none_of_no_match AccountType.toStr AccountType.values s h
  · intro x; cases x <;> rfl
  · intro s h; exact find_none_of_no_match CompanyType.toStr CompanyType.values s h
  · intro x; cases x <;> rfl
  · intro s h; exact find_none_of_no_match CompanySize.toStr CompanySize.values s h
  · intro x; cases x <;> rfl
  · intro s h; exact find_none_of_no_match PricingPlan.toStr PricingPlan.values s h
  · intro x; cases x <;> rfl
  · intro s h; exact find_none_of_no_match QueryType.toStr QueryType.values s h
  · intro x; cases x <;> rfl
  · intro s h; exact find_none_of_no_match Language.toStr Language.values s h

/-- Concrete instance of C2: the member string `b2c` is accepted and the
non-member string `xx` is rejected by `Language` validation. -/
theorem enum_fields_closed_sets_witness :
    UserType.ofString "b2c" = some UserType.B2C ∧ Language.ofString "xx" = none :=
  ⟨enum_fields_closed_sets.1.1 UserType.B2C,
   enum_fields_closed_sets.2.2.2.2.2.2.2 "xx" (by intro x; cases x <;> decide)⟩

/-- JSON object column (`sa_column=Column(JSON)` with a dict value),
modelled as an association list of string pairs. -/
abbrev JsonObj := List (String × String)

/-- A string field value is within a declared `max_length` bound. -/
def lenOk (n : Nat) (s : String) : Bool := decide (s.length ≤ n)

/-- An optional string field: absent, or within the declared `max_length`. -/
def optLenOk (n : Nat) : Option String → Bool
  | none => true
  | some s => lenOk n s

/-- A `Decimal` value with `max_digits = d`, as its unscaled integer: at
most `d` digits in total. -/
def decimalOk (d : Nat) (v : Int) : Bool := decide (v.natAbs < 10 ^ d)

/-- An optional decimal field: absent, or within the declared `max_digits`. -/
def optDecimalOk (d : Nat) : Option Int → Bool
  | none => true
  | some v => decimalOk d v

/-- Table model `User` (`users`): the declared columns, in order.
Relationship attributes are ORM conveniences, not columns, and are omitted
throughout. `email` carries `unique=True`, enforced by `usersInsert`. -/
structure User where
  id : Option Int := none
  email : String
  password_hash : String
  user_type : UserType
  account_type : Option AccountType := none
  organization_id : Option Int := none
  is_active : Bool := true
  can_generate_api_keys : Bool := false
  created_at : Nat
  updated_at : Nat
  deriving DecidableEq

/-- Table model `UserContext` (`user_contexts`): `user_id` is a required
foreign key with `unique=True`, enforced by `userContextsInsert`. -/
structure UserContext where
  id : Option Int := none
  user_id : Int
  user_type_context : String
  home_location : String
  preferred_language : Language
  profession : String
  personal_notes : String := ""
  context_data : JsonObj := []
  created_at : Nat
  updated_at : Nat
  deriving DecidableEq

/-- Table model `Subscription` (`subscriptions`): the week-pass field group
(`token_allowance`, `week_pass_expires_at`, `week_pass_price`) and the
bestprice field group (`current_price_per_1k_tokens`) are all plain
optional columns next to each other. -/
structure Subscription where
  id : Option Int := none
  user_id : Int
  pricing_plan : PricingPlan
  is_active : Bool := true
  token_allowance : Option Int := none
  tokens_used : Int := 0
  week_pass_expires_at : Option Nat := none
  week_pass_price : Option Int := none
  current_price_per_1k_tokens : Option Int := none
  total_tokens_consumed : Int := 0
  created_at : Nat
  updated_at : Nat
  deriving DecidableEq

/-- A `Subscription` row constructed supplying only the required fields:
every other column takes its declared default (`default_factory` timestamps
take the current clock value `now`). -/
def Subscription.mkRow (now : Nat) (uid : Int) (plan : PricingPlan) : Subscription :=
  { user_id := uid, pricing_plan := plan, created_at := now, updated_at := now }

/-- The declared column constraints of `Subscription`: both decimal columns
have `max_digits = 10`; no other column carries a constraint — in
particular nothing relates the two plan field groups or compares
`tokens_used` with `token_allowance`. -/
def Subscription.validate (s : Subscription) : Bool :=
  optDecimalOk 10 s.week_pass_price && optDecimalOk 10 s.current_price_per_1k_tokens

/-- Table model `ChatSessionDocument` (`chat_session_documents`): the join
entity between chat sessions and documents, with the composite primary key
`(chat_session_id, document_id)` enforced by `chatSessionDocumentsInsert`. -/
structure ChatSessionDocument where
  chat_session_id : Int
  document_id : Int
  added_at : Nat
  deriving DecidableEq

/-- Table model `Query` (`queries`): `query_text` carries
`max_length=5000`, the only declared length constraint of the table. -/
structure Query where
  id : Option Int := none
  user_id : Int
  chat_session_id : Option Int := none
  query_type : QueryType
  query_text : String
  response_text : String := ""
  language : Language
  tokens_consumed : Int := 0
  processing_time_ms : Option Int := none
  sources : List JsonObj := []
  chunks : List JsonObj := []
  context_used : JsonObj := []
  created_at : Nat
  deriving DecidableEq

/-- The declared length constraints of `Query`. -/
def Query.validate (q : Query) : Bool := lenOk 5000 q.query_text

/-- Validation shape `UserCreate`: `password` carries `min_length=8`. -/
structure UserCreate where
  email : String
  password : String
  user_type : UserType
  organization_name : Option String := none
  deriving DecidableEq

/-- The `min_length=8` check on `UserCreate.password`. -/
def UserCreate.passwordOk (u : UserCreate) : Bool := decide (8 ≤ u.password.length)

/-- The declared field constraints of `UserCreate`. -/
def UserCreate.validate (u : UserCreate) : Bool :=
  lenOk 255 u.email && u.passwordOk && optLenOk 200 u.organization_name

/-- Validation shape `UserContextCreate`. -/
structure UserContextCreate where
  user_type_context : String
  home_location : String
  preferred_language : Language
  profession : String
  personal_notes : String := ""
  context_data : JsonObj := []
  deriving DecidableEq

/-- The declared field constraints of `UserContextCreate`. -/
def UserContextCreate.validate (c : UserContextCreate) : Bool :=
  lenOk 50 c.user_type_context && lenOk 100 c.home_location &&
    lenOk 100 c.profession && lenOk 2000 c.personal_notes

/-- Validation shape `UserContextUpdate`: every field is optional with
default `None`. -/
structure UserContextUpdate where
  user_type_context : Option String := none
  home_location : Option String := none
  preferred_language : Option Language := none
  profession : Option String := none
  personal_notes : Option String := none
  context_data : Option JsonObj := none
  deriving DecidableEq

/-- A `UserContextUpdate` input that supplies no field at all: every field
takes its declared default. -/
def UserContextUpdate.empty : UserContextUpdate := {}

/-- The declared field constraints of `UserContextUpdate`: each supplied
string is checked against its `max_length`; an absent field passes. -/
def UserContextUpdate.validate (u : UserContextUpdate) : Bool :=
  optLenOk 50 u.user_type_context && optLenOk 100 u.home_location &&
    optLenOk 100 u.profession && optLenOk 2000 u.personal_notes

/-- Validation shape `OrganizationCreate`. -/
structure OrganizationCreate where
  name : String
  company_type : CompanyType
  company_size : CompanySize
  headquarters_location : String
  subsidiary_locations : List String := []
  deriving DecidableEq

/-- The declared field constraints of `OrganizationCreate`. -/
def OrganizationCreate.validate (o : OrganizationCreate) : Bool :=
  lenOk 200 o.name && lenOk 100 o.headquarters_location

/-- Validation shape `QueryCreate`: `query_text` carries `max_length=5000`. -/
structure QueryCreate where
  query_text : String
  query_type : QueryType
  language : Language
  chat_session_id : Option Int := none
  deriving DecidableEq

/-- The declared field constraints of `QueryCreate`. -/
def QueryCreate.validate (q : QueryCreate) : Bool := lenOk 5000 q.query_text

/-- Validation shape `APIKeyCreate`. -/
structure APIKeyCreate where
  name : String
  expires_at : Option Nat := none
  deriving DecidableEq

/-- The declared field constraints of `APIKeyCreate`. -/
def APIKeyCreate.validate (k : APIKeyCreate) : Bool := lenOk 100 k.name

/-- Validation shape `DocumentUpload`. -/
structure DocumentUpload where
  filename : String
  file_size : Int
  mime_type : String
  language : Option Language := none
  deriving DecidableEq

/-- The declared field constraints of `DocumentUpload`. -/
def DocumentUpload.validate (d : DocumentUpload) : Bool :=
  lenOk 255 d.filename && lenOk 100 d.mime_type

/-- Validation shape `ChatSessionCreate`. -/
structure ChatSessionCreate where
  title : String
  query_type : QueryType
  language : Language
  document_ids : List Int := []
  deriving DecidableEq

/-- The declared field constraints of `ChatSessionCreate`. -/
def ChatSessionCreate.validate (c : ChatSessionCreate) : Bool := lenOk 200 c.title

/-- Insert a row into a table subject to a uniqueness constraint on `key`
(a `unique=True` column or a composite primary key): the database rejects
a row whose key is already present. -/
def insertUnique {α β : Type} [DecidableEq β] (key : α → β)
    (tbl : List α) (r : α) : Option (List α) :=
  if tbl.any (fun q => decide (key q = key r)) then none else some (r :: tbl)

/-- The tables reachable from the empty table by successful inserts. -/
inductive TableReach {α : Type} (ins : List α → α → Option (List α)) : List α → Prop where
  | nil : TableReach ins []
  | step {t : List α} {r : α} {t2 : List α} :
      TableReach ins t → ins t r = some t2 → TableReach ins t2

/-- Every table reachable through `insertUnique key` has pairwise distinct
keys. -/
theorem insertUnique_reach_pairwise {α β : Type} [DecidableEq β] (key : α → β)
    {tbl : List α} (h : TableReach (insertUnique key) tbl) :
    tbl.Pairwise (fun a b => key a ≠ key b) := by
  induction h with
  | nil => exact List.Pairwise.nil
  | step ht hins ih =>
    unfold insertUnique at hins
    split at hins
    · exact absurd hins (by simp)
    · rename_i hany
      cases hins
      refine List.Pairwise.cons ?_ ih
      intro b hb hkey
      simp only [List.any_eq_true, decide_eq_true_eq, not_exists] at hany
      exact hany b ⟨hb, hkey.symm⟩

/-- Index form of `insertUnique_reach_pairwise`: two rows at distinct
positions of a reachable table have distinct keys. -/
theorem insertUnique_reach_get_ne {α β : Type} [DecidableEq β] (key : α → β)
    {tbl : List α} (h : TableReach (insertUnique key) tbl)
    (i j : Fin tbl.length) (hij : i ≠ j) :
    key (tbl.get i) ≠ key (tbl.get j) := by
  have hp := List.pairwise_iff_get.mp (insertUnique_reach_pairwise key h)
  rcases lt_or_gt_of_ne hij with hlt | hgt
  · exact hp i j hlt
  · exact (hp j i hgt).symm

/-- Insertion into `users`, enforcing the declared `unique=True` on `email`. -/
def usersInsert : List User → User → Option (List User) :=
  insertUnique (fun u : User => u.email)

/-- Insertion into `user_contexts`, enforcing the declared `unique=True`
on `user_id`. -/
def userContextsInsert : List UserContext → UserContext → Option (List UserContext) :=
  insertUnique (fun c : UserContext => c.user_id)

/-- Insertion into `chat_session_documents`, enforcing the composite
primary key `(chat_session_id, document_id)`. -/
def chatSessionDocumentsInsert :
    List ChatSessionDocument → ChatSessionDocument → Option (List ChatSessionDocument) :=
  insertUnique (fun l : ChatSessionDocument => (l.chat_session_id, l.document_id))

/-- C1: the week-pass field group and the bestprice field group of
`Subscription` are not mutually exclusive in the schema: for either value
of `pricing_plan` there is a record assigning concrete values to every
field of both groups that the schema accepts. -/
theorem subscription_field_groups_not_exclusive :
    ∀ p : PricingPlan, ∃ s : Subscription,
      s.pricing_plan = p ∧
      s.token_allowance = some 50000 ∧
      s.week_pass_expires_at = some 1767225600 ∧
      s.week_pass_price = some 2999 ∧
      s.current_price_per_1k_tokens = some 15000 ∧
      Subscription.validate s = true := by
  intro p
  exact ⟨{ user_id := 1, pricing_plan := p, token_allowance := some 50000,
           week_pass_expires_at := some 1767225600, week_pass_price := some 2999,
           current_price_per_1k_tokens := some 15000,
           created_at := 0, updated_at := 0 },
         rfl, rfl, rfl, rfl, rfl, rfl⟩

/-- A concrete week-pass `Subscription` row whose `tokens_used` exceeds its
`token_allowance`. -/
def overusedWeekPass : Subscription :=
  { user_id := 1, pricing_plan := .WEEK_PASS, token_allowance := some 10,
    tokens_used := 20, created_at := 0, updated_at := 0 }

/-- C3: the schema does not enforce `tokens_used <= token_allowance` for
week-pass subscriptions: a record with `token_allowance = 10` and
`tokens_used = 20` is accepted. -/
theorem subscription_allows_tokens_used_above_allowance :
    overusedWeekPass.pricing_plan = PricingPlan.WEEK_PASS ∧
    overusedWeekPass.token_allowance = some 10 ∧
    overusedWeekPass.tokens_used = 20 ∧
    (10 : Int) < 20 ∧
    Subscription.validate overusedWeekPass = true :=
  ⟨rfl, rfl, rfl, by decide, rfl⟩

/-- C4: for each declared shape, validation succeeds exactly when every
length-constrained field is within its declared `max_length`; in
particular a `QueryCreate` passes exactly when `query_text` has at most
5000 characters. -/
theorem max_length_validation :
    (∀ q : QueryCreate, QueryCreate.validate q = true ↔ q.query_text.length ≤ 5000) ∧
    (∀ q : Query, Query.validate q = true ↔ q.query_text.length ≤ 5000) ∧
    (∀ k : APIKeyCreate, APIKeyCreate.validate k = true ↔ k.name.length ≤ 100) ∧
    (∀ c : ChatSessionCreate, ChatSessionCreate.validate c = true ↔ c.title.length ≤ 200) ∧
    (∀ d : DocumentUpload, DocumentUpload.validate d = true ↔
      (d.filename.length ≤ 255 ∧ d.mime_type.length ≤ 100)) ∧
    (∀ o : OrganizationCreate, OrganizationCreate.validate o = true ↔
      (o.name.length ≤ 200 ∧ o.headquarters_location.length ≤ 100)) ∧
    (∀ c : UserContextCreate, UserContextCreate.validate c = true ↔
      (c.user_type_context.length ≤ 50 ∧ c.home_location.length ≤ 100 ∧
        c.profession.length ≤ 100 ∧ c.personal_notes.length ≤ 2000)) := by
  refine ⟨?_, ?_, ?_, ?_, ?_, ?_, ?_⟩ <;> intro x <;>
    simp [QueryCreate.validate, Query.validate, APIKeyCreate.validate,
      ChatSessionCreate.validate, DocumentUpload.validate, OrganizationCreate.validate,
      UserContextCreate.validate, lenOk, Bool.and_eq_true, and_assoc]

/-- Concrete instance of C4: a short `QueryCreate` passes validation. -/
theorem max_length_validation_witness :
    QueryCreate.validate
      { query_text := "What is GDPR?", query_type := QueryType.MAIN,
        language := Language.EN } = true :=
  (max_length_validation.1
    { query_text := "What is GDPR?", query_type := QueryType.MAIN,
      language := Language.EN }).mpr (by decide)

/-- C5: `user_id` is a required column of `user_contexts` carrying a
unique constraint, so in every reachable table two distinct rows have
distinct `user_id` values: each user has at most one `UserContext`. -/
theorem user_context_one_to_one (tbl : List UserContext)
    (h : TableReach userContextsInsert tbl)
    (i j : Fin tbl.length) (hij : i ≠ j) :
    (tbl.get i).user_id ≠ (tbl.get j).user_id :=
  insertUnique_reach_get_ne (fun c : UserContext => c.user_id) h i j hij

/-- Concrete `user_contexts` rows for instantiating C5. -/
def ucRowA : UserContext :=
  { user_id := 1, user_type_context := "private_person", home_location := "Sofia",
    preferred_language := .BG, profession := "engineer", created_at := 0, updated_at := 0 }

/-- A second concrete `user_contexts` row with a different `user_id`. -/
def ucRowB : UserContext :=
  { user_id := 2, user_type_context := "company", home_location := "Berlin",
    preferred_language := .DE, profession := "lawyer", created_at := 0, updated_at := 0 }

/-- Concrete instance of C5 on a two-row table built by two inserts. -/
theorem user_context_one_to_one_witness : ucRowB.user_id ≠ ucRowA.user_id := by
  have h1 : TableReach userContextsInsert [ucRowA] :=
    @TableReach.step UserContext userContextsInsert [] ucRowA [ucRowA]
      TableReach.nil (by decide)
  have h2 : TableReach userContextsInsert [ucRowB, ucRowA] :=
    @TableReach.step UserContext userContextsInsert [ucRowA] ucRowB [ucRowB, ucRowA]
      h1 (by decide)
  exact user_context_one_to_one [ucRowB, ucRowA] h2
    ⟨0, by decide⟩ ⟨1, by decide⟩ (by decide)

/-- C6: `chat_session_documents` has the composite primary key
`(chat_session_id, document_id)`: in every reachable table two distinct
rows have distinct key pairs, so at most one link row exists per
chat-session/document pair. -/
theorem chat_session_document_composite_key (tbl : List ChatSessionDocument)
    (h : TableReach chatSessionDocumentsInsert tbl)
    (i j : Fin tbl.length) (hij : i ≠ j) :
    ((tbl.get i).chat_session_id, (tbl.get i).document_id) ≠
      ((tbl.get j).chat_session_id, (tbl.get j).document_id) :=
  insertUnique_reach_get_ne
    (fun l : ChatSessionDocument => (l.chat_session_id, l.document_id)) h i j hij

/-- A concrete `chat_session_documents` link row. -/
def linkRowA : ChatSessionDocument :=
  { chat_session_id := 1, document_id := 1, added_at := 0 }

/-- A second link row in the same chat session linking another document. -/
def linkRowB : ChatSessionDocument :=
  { chat_session_id := 1, document_id := 2, added_at := 5 }

/-- Concrete instance of C6: two link rows sharing a chat session but
linking different documents have distinct composite keys. -/
theorem chat_session_document_composite_key_witness :
    (linkRowB.chat_session_id, linkRowB.document_id) ≠
      (linkRowA.chat_session_id, linkRowA.document_id) := by
  have h1 : TableReach chatSessionDocumentsInsert [linkRowA] :=
    @TableReach.step ChatSessionDocument chatSessionDocumentsInsert []
      linkRowA [linkRowA] TableReach.nil (by decide)
  have h2 : TableReach chatSessionDocumentsInsert [linkRowB, linkRowA] :=
    @TableReach.step ChatSessionDocument chatSessionDocumentsInsert
      [linkRowA] linkRowB [linkRowB, linkRowA] h1 (by decide)
  exact chat_session_document_composite_key [linkRowB, linkRowA] h2
    ⟨0, by decide⟩ ⟨1, by decide⟩ (by decide)

/-- C7: every field of `UserContextUpdate` is optional with default
`None`: any input whose supplied values satisfy their length constraints
is accepted, and the input supplying nothing leaves every field `None`. -/
theorem user_context_update_all_optional :
    (∀ u : UserContextUpdate,
      (∀ s : String, u.user_type_context = some s → s.length ≤ 50) →
      (∀ s : String, u.home_location = some s → s.length ≤ 100) →
      (∀ s : String, u.profession = some s → s.length ≤ 100) →
      (∀ s : String, u.personal_notes = some s → s.length ≤ 2000) →
      UserContextUpdate.validate u = true) ∧
    UserContextUpdate.empty.user_type_context = none ∧
    UserContextUpdate.empty.home_location = none ∧
    UserContextUpdate.empty.preferred_language = none ∧
    UserContextUpdate.empty.profession = none ∧
    UserContextUpdate.empty.personal_notes = none ∧
    UserContextUpdate.empty.context_data = none := by
  refine ⟨?_, rfl, rfl, rfl, rfl, rfl, rfl⟩
  intro u h1 h2 h3 h4
  have g1 : optLenOk 50 u.user_type_context = true := by
    cases hu : u.user_type_context with
    | none => rfl
    | some s => simpa [optLenOk, lenOk] using h1 s hu
  have g2 : optLenOk 100 u.home_location = true := by
    cases hu : u.home_location with
    | none => rfl
    | some s => simpa [optLenOk, lenOk] using h2 s hu
  have g3 : optLenOk 100 u.profession = true := by
    cases hu : u.profession with
    | none => rfl
    | some s => simpa [optLenOk, lenOk] using h3 s hu
  have g4 : optLenOk 2000 u.personal_notes = true := by
    cases hu : u.personal_notes with
    | none => rfl
    | some s => simpa [optLenOk, lenOk] using h4 s hu
  simp [UserContextUpdate.validate, g1, g2, g3, g4]

/-- A partial update supplying only the `profession` field. -/
def professionOnlyUpdate : UserContextUpdate := { profession := some "lawyer" }

/-- Concrete instance of C7: the profession-only partial update is
accepted. -/
theorem user_context_update_all_optional_witness :
    UserContextUpdate.validate professionOnlyUpdate = true := by
  apply user_context_update_all_optional.1 professionOnlyUpdate
  · intro s hs
    exact Option.noConfusion (show (none : Option String) = some s from hs)
  · intro s hs
    exact Option.noConfusion (show (none : Option String) = some s from hs)
  · intro s hs
    have h2 : s = "lawyer" :=
      (Option.some.inj (show some "lawyer" = some s from hs)).symm
    subst h2; decide
  · intro s hs
    exact Option.noConfusion (show (none : Option String) = some s from hs)

/-- C8: `users.email` carries a unique constraint: in every reachable
table two distinct rows have distinct `email` values. -/
theorem user_email_unique (tbl : List User)
    (h : TableReach usersInsert tbl)
    (i j : Fin tbl.length) (hij : i ≠ j) :
    (tbl.get i).email ≠ (tbl.get j).email :=
  insertUnique_reach_get_ne (fun u : User => u.email) h i j hij

/-- Concrete `users` rows for instantiating C8. -/
def userRowA : User :=
  { email := "a@example.com", password_hash := "h1", user_type := .B2C,
    created_at := 0, updated_at := 0 }

/-- A second concrete `users` row with a different email. -/
def userRowB : User :=
  { email := "b@example.com", password_hash := "h2", user_type := .B2B,
    created_at := 0, updated_at := 0 }

/-- Concrete instance of C8 on a two-row table built by two inserts. -/
theorem user_email_unique_witness : userRowB.email ≠ userRowA.email := by
  have h1 : TableReach usersInsert [userRowA] :=
    @TableReach.step User usersInsert [] userRowA [userRowA]
      TableReach.nil (by decide)
  have h2 : TableReach usersInsert [userRowB, userRowA] :=
    @TableReach.step User usersInsert [userRowA] userRowB [userRowB, userRowA]
      h1 (by decide)
  exact user_email_unique [userRowB, userRowA] h2 ⟨0, by decide⟩ ⟨1, by decide⟩ (by decide)

/-- C9: `UserCreate.password` carries `min_length=8`: a shorter password
fails validation, and a password of at least 8 characters passes the
password check. -/
theorem user_create_min_password_length :
    ∀ u : UserCreate,
      (u.password.length < 8 → UserCreate.validate u = false) ∧
      (8 ≤ u.password.length → UserCreate.passwordOk u = true) := by
  intro u
  constructor
  · intro h
    have hp : UserCreate.passwordOk u = false := by
      simp only [UserCreate.passwordOk, decide_eq_false_iff_not]
      omega
    simp [UserCreate.validate, hp]
  · intro h
    simp [UserCreate.passwordOk, h]

/-- Concrete instance of C9: a 5-character password is rejected and a
10-character one passes the password check. -/
theorem user_create_min_password_length_witness :
    UserCreate.validate
      { email := "a@example.com", password := "short", user_type := UserType.B2C } = false ∧
    UserCreate.passwordOk
      { email := "a@example.com", password := "longenough", user_type := UserType.B2C } = true :=
  ⟨(user_create_min_password_length
      { email := "a@example.com", password := "short", user_type := UserType.B2C }).1
      (by decide),
   (user_create_min_password_length
      { email := "a@example.com", password := "longenough", user_type := UserType.B2C }).2
      (by decide)⟩

/-- C10: a `Subscription` row constructed without supplying the token
counters starts at zero (`tokens_used = 0`, `total_tokens_consumed = 0`)
while `token_allowance`, `week_pass_expires_at`, `week_pass_price` and
`current_price_per_1k_tokens` default to `None`. -/
theorem subscription_token_counters_default_zero (now : Nat) (uid : Int) (p : PricingPlan) :
    (Subscription.mkRow now uid p).tokens_used = 0 ∧
    (Subscription.mkRow now uid p).total_tokens_consumed = 0 ∧
    (Subscription.mkRow now uid p).token_allowance = none ∧
    (Subscription.mkRow now uid p).week_pass_expires_at = none ∧
    (Subscription.mkRow now uid p).week_pass_price = none ∧
    (Subscription.mkRow now uid p).current_price_per_1k_tokens = none :=
  ⟨rfl, rfl, rfl, rfl, rfl, rfl⟩

end App
